import Mathlib

/-!
Shallow embedding of the TexasMap cache-and-fetch subsystem:
  * src/src/services/countyDataCache.ts  (CountyDataCacheService)
  * src/src/hooks/useCallForCountyInfo.ts (normalizeCountyName, callForCountyInfo, render)
  * src/src/apis/countyInfoAPIs.ts        (TEXAS_COUNTY_FIPS, getCountyInfo, processCensusData)
  * src/src/utils/http.ts                 (httpRequest)

JavaScript strings are modelled as lists of characters; JavaScript numbers
holding timestamps as Int (millisecond clock values); JavaScript objects used
as string-keyed maps as association lists with pairwise-distinct keys.
-/

/-- A JavaScript string, modelled as a list of characters. -/
abbrev Str := List Char

/-- JavaScript whitespace as used by `String.prototype.trim` and the regex
class `\s`, restricted to the ASCII range (space, tab, LF, CR, VT, FF); the
Unicode space characters are not modelled. -/
def isWs (c : Char) : Bool :=
  c.toNat = 32 || c.toNat = 9 || c.toNat = 10 || c.toNat = 13 || c.toNat = 11 || c.toNat = 12

/-- `String.prototype.toLowerCase`, character-wise (ASCII case mapping). -/
def toLowerStr (s : Str) : Str := s.map Char.toLower

/-- `String.prototype.trim`: drop whitespace from both ends. -/
def trimStr (s : Str) : Str :=
  ((s.dropWhile isWs).reverse.dropWhile isWs).reverse

/-- Case-insensitive literal matcher: if `s` starts (case-insensitively) with
the lowercase literal `lit`, return the rest of `s`. -/
def matchLit : Str → Str → Option Str
  | [], s => some s
  | _ :: _, [] => none
  | l :: ls, c :: cs => if Char.toLower c = l then matchLit ls cs else none

/-- Whether `s` is matched in full by the regular expression
`\s*county\s*(,\s*texas)?\s*$` with the `i` flag
(from `normalizeCountyName` in src/src/hooks/useCallForCountyInfo.ts).
Each `\s*` is followed by a non-whitespace requirement or end of input, so the
greedy deterministic scan below is equivalent to the backtracking regex. -/
def matchCountySuffix (s : Str) : Bool :=
  match matchLit "county".data (s.dropWhile isWs) with
  | none => false
  | some s2 =>
    match s2.dropWhile isWs with
    | [] => true
    | ',' :: s4 =>
      match matchLit "texas".data (s4.dropWhile isWs) with
      | none => false
      | some s6 => s6.dropWhile isWs = ([] : Str)
    | _ :: _ => false

/-- Scan for the leftmost start position of a match of the county-suffix
regex; `acc` is the reversed prefix already scanned.  Models the leftmost
match rule of `String.prototype.replace` with a `$`-anchored pattern. -/
def replaceCountySuffixAux : Str → Str → Option Str
  | acc, s =>
    if matchCountySuffix s then some acc.reverse
    else
      match s with
      | [] => none
      | c :: cs => replaceCountySuffixAux (c :: acc) cs

/-- `s.replace(/\s*county\s*(,\s*texas)?\s*$/i, '')`: delete the leftmost
match of the anchored county-suffix pattern, if any. -/
def replaceCountySuffix (s : Str) : Str :=
  match replaceCountySuffixAux [] s with
  | some r => r
  | none => s

/-- `normalizeCountyName` from src/src/hooks/useCallForCountyInfo.ts
(lines 11-15): strip the trailing county suffix, then trim. -/
def normalizeCountyName (s : Str) : Str :=
  trimStr (replaceCountySuffix s)

/-- `CountyDataCacheService.normalizeCountyName` from
src/src/services/countyDataCache.ts (lines 47-49): lowercase, then trim. -/
def cacheNormalizeCountyName (s : Str) : Str :=
  trimStr (toLowerStr s)

/-- The effective key normalization applied on the fetch path: the hook
normalizes the raw name (`normalizeCountyName`) and every cache operation
normalizes again (`cacheNormalizeCountyName`). -/
def keyNormalize (s : Str) : Str :=
  cacheNormalizeCountyName (normalizeCountyName s)

example : keyNormalize "  HARRIS County, Texas ".data = "harris".data := by decide
example : keyNormalize "Ha rris ".data = "ha rris".data := by decide
example : keyNormalize "county county".data = "county".data := by decide
example : keyNormalize "county".data = ([] : Str) := by decide

/-- Modelled from the spec: the Key Normalizer "lower-cases, trims whitespace,
and strips a trailing pattern matching (case-insensitively) county optionally
followed by , texas" — the three effects in one pass: strip the suffix
case-insensitively, then lower-case, then trim. -/
def specKeyNormalize (s : Str) : Str := trimStr (toLowerStr (replaceCountySuffix s))

/-- The `CountyInfo` record from src/src/types (fields as produced by
`processCensusData`); JavaScript numbers from `parseInt` are modelled as
integers. -/
structure CountyInfo where
  name : Str
  population : Int
  medianHouseholdIncome : Int
  medianHomeValue : Int
  totalCommuteTime : Int
  bachelorsDegreePop : Int
  ownerOccupiedHousing : Int
  renterOccupiedHousing : Int
  stateCode : Str
  countyCode : Str
deriving DecidableEq, Repr

/-- `CacheEntry` from src/src/services/countyDataCache.ts: a record plus the
`Date.now()` value at which it was stored. -/
structure CacheEntry where
  data : CountyInfo
  timestamp : Int
deriving DecidableEq, Repr

/-- The private `cache` object of `CountyDataCacheService`: a string-keyed
JavaScript object, modelled as an association list.  JavaScript object keys
are pairwise distinct; theorems that depend on that carry a `Nodup`
hypothesis on the key list. -/
abbrev CountyCache := List (Str × CacheEntry)

/-- Property read `this.cache[cacheKey]` on a JavaScript object. -/
def lookupKey : CountyCache → Str → Option CacheEntry
  | [], _ => none
  | kv :: rest, k => if kv.1 = k then some kv.2 else lookupKey rest k

/-- Property write `this.cache[cacheKey] = entry`: overwrite in place when the
key is present, append otherwise. -/
def insertKey : CountyCache → Str → CacheEntry → CountyCache
  | [], k, e => [(k, e)]
  | kv :: rest, k, e => if kv.1 = k then (k, e) :: rest else kv :: insertKey rest k e

/-- `delete this.cache[cacheKey]`: remove the entry for that key (keys of a
JavaScript object are unique, so filtering all occurrences is the same
operation). -/
def eraseKey (c : CountyCache) (k : Str) : CountyCache :=
  c.filter fun kv => decide (kv.1 ≠ k)

/-- `CACHE_EXPIRY_TIME` (24 hours in milliseconds),
src/src/services/countyDataCache.ts line 22. -/
def CACHE_EXPIRY_TIME : Int := 24 * 60 * 60 * 1000

/-- `CountyDataCacheService.isCacheValid` (lines 38-40):
`Date.now() - timestamp < CACHE_EXPIRY_TIME`. -/
def isCacheValid (now timestamp : Int) : Bool :=
  now - timestamp < CACHE_EXPIRY_TIME

/-- `CountyDataCacheService.set` (lines 56-62); `now` is the `Date.now()`
value at the moment of the call. -/
def cacheSet (c : CountyCache) (countyName : Str) (d : CountyInfo) (now : Int) :
    CountyCache :=
  insertKey c (cacheNormalizeCountyName countyName) ⟨d, now⟩

/-- `CountyDataCacheService.remove` (lines 100-103). -/
def cacheRemove (c : CountyCache) (countyName : Str) : CountyCache :=
  eraseKey c (cacheNormalizeCountyName countyName)

/-- `CountyDataCacheService.get` (lines 69-84).  Returns the result together
with the cache left behind (the expired branch removes the entry as a side
effect).  Total: every branch returns a value, no exception is possible. -/
def cacheGet (c : CountyCache) (countyName : Str) (now : Int) :
    Option CountyInfo × CountyCache :=
  let cacheKey := cacheNormalizeCountyName countyName
  match lookupKey c cacheKey with
  | none => (none, c)
  | some cachedEntry =>
    if isCacheValid now cachedEntry.timestamp then (some cachedEntry.data, c)
    else (none, cacheRemove c countyName)

/-- `CountyDataCacheService.size` (lines 116-118): `Object.keys(cache).length`. -/
def cacheSize (c : CountyCache) : Nat := c.length

/-- One iteration of the `forEach` in `cleanupExpired`: delete the entry for
`k` when its timestamp is no longer valid.  (During the real loop the lookup
never misses, since the snapshot keys are distinct and each is visited once;
the `none` arm is unreachable there.) -/
def cleanupStep (now : Int) (acc : CountyCache) (k : Str) : CountyCache :=
  match lookupKey acc k with
  | some e => if isCacheValid now e.timestamp then acc else eraseKey acc k
  | none => acc

/-- `CountyDataCacheService.cleanupExpired` (lines 179-191): snapshot the key
list, delete every entry whose data is no longer valid, return
`initialSize - size()` together with the resulting cache.  `now` is the
`Date.now()` value during the call (the call is treated as instantaneous). -/
def cleanupExpired (c : CountyCache) (now : Int) : Nat × CountyCache :=
  let initialSize := cacheSize c
  let c2 := (c.map Prod.fst).foldl (cleanupStep now) c
  (initialSize - cacheSize c2, c2)

example :
    cacheGet (cacheSet [] "Harris ".data ⟨"Harris County, Texas".data, 4731145, 0, 0, 0, 0, 0, 0, "48".data, "201".data⟩ 5) "HARRIS".data 10 =
    (some ⟨"Harris County, Texas".data, 4731145, 0, 0, 0, 0, 0, 0, "48".data, "201".data⟩,
      [("harris".data, ⟨⟨"Harris County, Texas".data, 4731145, 0, 0, 0, 0, 0, 0, "48".data, "201".data⟩, 5⟩)]) := by
  decide

set_option maxRecDepth 4000

/-- `TEXAS_COUNTY_FIPS` from src/src/apis/countyInfoAPIs.ts (lines 7-72): the
254 Texas county names mapped to their 3-digit FIPS codes, in source order. -/
def TEXAS_COUNTY_FIPS : List (Str × Str) := [
  ("Anderson".data, "001".data), ("Andrews".data, "003".data), ("Angelina".data, "005".data), ("Aransas".data, "007".data),
  ("Archer".data, "009".data), ("Armstrong".data, "011".data), ("Atascosa".data, "013".data), ("Austin".data, "015".data),
  ("Bailey".data, "017".data), ("Bandera".data, "019".data), ("Bastrop".data, "021".data), ("Baylor".data, "023".data),
  ("Bee".data, "025".data), ("Bell".data, "027".data), ("Bexar".data, "029".data), ("Blanco".data, "031".data),
  ("Borden".data, "033".data), ("Bosque".data, "035".data), ("Bowie".data, "037".data), ("Brazoria".data, "039".data),
  ("Brazos".data, "041".data), ("Brewster".data, "043".data), ("Briscoe".data, "045".data), ("Brooks".data, "047".data),
  ("Brown".data, "049".data), ("Burleson".data, "051".data), ("Burnet".data, "053".data), ("Caldwell".data, "055".data),
  ("Calhoun".data, "057".data), ("Callahan".data, "059".data), ("Cameron".data, "061".data), ("Camp".data, "063".data),
  ("Carson".data, "065".data), ("Cass".data, "067".data), ("Castro".data, "069".data), ("Chambers".data, "071".data),
  ("Cherokee".data, "073".data), ("Childress".data, "075".data), ("Clay".data, "077".data), ("Cochran".data, "079".data),
  ("Coke".data, "081".data), ("Coleman".data, "083".data), ("Collin".data, "085".data), ("Collingsworth".data, "087".data),
  ("Colorado".data, "089".data), ("Comal".data, "091".data), ("Comanche".data, "093".data), ("Concho".data, "095".data),
  ("Cooke".data, "097".data), ("Coryell".data, "099".data), ("Cottle".data, "101".data), ("Crane".data, "103".data),
  ("Crockett".data, "105".data), ("Crosby".data, "107".data), ("Culberson".data, "109".data), ("Dallam".data, "111".data),
  ("Dallas".data, "113".data), ("Dawson".data, "115".data), ("Deaf Smith".data, "117".data), ("Delta".data, "119".data),
  ("Denton".data, "121".data), ("DeWitt".data, "123".data), ("Dickens".data, "125".data), ("Dimmit".data, "127".data),
  ("Donley".data, "129".data), ("Duval".data, "131".data), ("Eastland".data, "133".data), ("Ector".data, "135".data),
  ("Edwards".data, "137".data), ("Ellis".data, "139".data), ("El Paso".data, "141".data), ("Erath".data, "143".data),
  ("Falls".data, "145".data), ("Fannin".data, "147".data), ("Fayette".data, "149".data), ("Fisher".data, "151".data),
  ("Floyd".data, "153".data), ("Foard".data, "155".data), ("Fort Bend".data, "157".data), ("Franklin".data, "159".data),
  ("Freestone".data, "161".data), ("Frio".data, "163".data), ("Gaines".data, "165".data), ("Galveston".data, "167".data),
  ("Garza".data, "169".data), ("Gillespie".data, "171".data), ("Glasscock".data, "173".data), ("Goliad".data, "175".data),
  ("Gonzales".data, "177".data), ("Gray".data, "179".data), ("Grayson".data, "181".data), ("Gregg".data, "183".data),
  ("Grimes".data, "185".data), ("Guadalupe".data, "187".data), ("Hale".data, "189".data), ("Hall".data, "191".data),
  ("Hamilton".data, "193".data), ("Hansford".data, "195".data), ("Hardeman".data, "197".data), ("Hardin".data, "199".data),
  ("Harris".data, "201".data), ("Harrison".data, "203".data), ("Hartley".data, "205".data), ("Haskell".data, "207".data),
  ("Hays".data, "209".data), ("Hemphill".data, "211".data), ("Henderson".data, "213".data), ("Hidalgo".data, "215".data),
  ("Hill".data, "217".data), ("Hockley".data, "219".data), ("Hood".data, "221".data), ("Hopkins".data, "223".data),
  ("Houston".data, "225".data), ("Howard".data, "227".data), ("Hudspeth".data, "229".data), ("Hunt".data, "231".data),
  ("Hutchinson".data, "233".data), ("Irion".data, "235".data), ("Jack".data, "237".data), ("Jackson".data, "239".data),
  ("Jasper".data, "241".data), ("Jeff Davis".data, "243".data), ("Jefferson".data, "245".data), ("Jim Hogg".data, "247".data),
  ("Jim Wells".data, "249".data), ("Johnson".data, "251".data), ("Jones".data, "253".data), ("Karnes".data, "255".data),
  ("Kaufman".data, "257".data), ("Kendall".data, "259".data), ("Kenedy".data, "261".data), ("Kent".data, "263".data),
  ("Kerr".data, "265".data), ("Kimble".data, "267".data), ("King".data, "269".data), ("Kinney".data, "271".data),
  ("Kleberg".data, "273".data), ("Knox".data, "275".data), ("Lamar".data, "277".data), ("Lamb".data, "279".data),
  ("Lampasas".data, "281".data), ("LaSalle".data, "283".data), ("Lavaca".data, "285".data), ("Lee".data, "287".data),
  ("Leon".data, "289".data), ("Liberty".data, "291".data), ("Limestone".data, "293".data), ("Lipscomb".data, "295".data),
  ("Live Oak".data, "297".data), ("Llano".data, "299".data), ("Loving".data, "301".data), ("Lubbock".data, "303".data),
  ("Lynn".data, "305".data), ("McCulloch".data, "307".data), ("McLennan".data, "309".data), ("McMullen".data, "311".data),
  ("Madison".data, "313".data), ("Marion".data, "315".data), ("Martin".data, "317".data), ("Mason".data, "319".data),
  ("Matagorda".data, "321".data), ("Maverick".data, "323".data), ("Medina".data, "325".data), ("Menard".data, "327".data),
  ("Midland".data, "329".data), ("Milam".data, "331".data), ("Mills".data, "333".data), ("Mitchell".data, "335".data),
  ("Montague".data, "337".data), ("Montgomery".data, "339".data), ("Moore".data, "341".data), ("Morris".data, "343".data),
  ("Motley".data, "345".data), ("Nacogdoches".data, "347".data), ("Navarro".data, "349".data), ("Newton".data, "351".data),
  ("Nolan".data, "353".data), ("Nueces".data, "355".data), ("Ochiltree".data, "357".data), ("Oldham".data, "359".data),
  ("Orange".data, "361".data), ("Palo Pinto".data, "363".data), ("Panola".data, "365".data), ("Parker".data, "367".data),
  ("Parmer".data, "369".data), ("Pecos".data, "371".data), ("Polk".data, "373".data), ("Potter".data, "375".data),
  ("Presidio".data, "377".data), ("Rains".data, "379".data), ("Randall".data, "381".data), ("Reagan".data, "383".data),
  ("Real".data, "385".data), ("Red River".data, "387".data), ("Reeves".data, "389".data), ("Refugio".data, "391".data),
  ("Roberts".data, "393".data), ("Robertson".data, "395".data), ("Rockwall".data, "397".data), ("Runnels".data, "399".data),
  ("Rusk".data, "401".data), ("Sabine".data, "403".data), ("San Augustine".data, "405".data), ("San Jacinto".data, "407".data),
  ("San Patricio".data, "409".data), ("San Saba".data, "411".data), ("Schleicher".data, "413".data), ("Scurry".data, "415".data),
  ("Shackelford".data, "417".data), ("Shelby".data, "419".data), ("Sherman".data, "421".data), ("Smith".data, "423".data),
  ("Somervell".data, "425".data), ("Starr".data, "427".data), ("Stephens".data, "429".data), ("Sterling".data, "431".data),
  ("Stonewall".data, "433".data), ("Sutton".data, "435".data), ("Swisher".data, "437".data), ("Tarrant".data, "439".data),
  ("Taylor".data, "441".data), ("Terrell".data, "443".data), ("Terry".data, "445".data), ("Throckmorton".data, "447".data),
  ("Titus".data, "449".data), ("Tom Green".data, "451".data), ("Travis".data, "453".data), ("Trinity".data, "455".data),
  ("Tyler".data, "457".data), ("Upshur".data, "459".data), ("Upton".data, "461".data), ("Uvalde".data, "463".data),
  ("Val Verde".data, "465".data), ("Van Zandt".data, "467".data), ("Victoria".data, "469".data), ("Walker".data, "471".data),
  ("Waller".data, "473".data), ("Ward".data, "475".data), ("Washington".data, "477".data), ("Webb".data, "479".data),
  ("Wharton".data, "481".data), ("Wheeler".data, "483".data), ("Wichita".data, "485".data), ("Wilbarger".data, "487".data),
  ("Willacy".data, "489".data), ("Williamson".data, "491".data), ("Wilson".data, "493".data), ("Winkler".data, "495".data),
  ("Wise".data, "497".data), ("Wood".data, "499".data), ("Yoakum".data, "501".data), ("Young".data, "503".data),
  ("Zapata".data, "505".data), ("Zavala".data, "507".data)]

example : TEXAS_COUNTY_FIPS.length = 254 := by decide

/-- The comma-joined Census variable list from `getCountyInfo`. -/
def censusVariables : Str :=
  "NAME,B01001_001E,B19013_001E,B25077_001E,B08303_001E,B15003_022E,B25003_002E,B25003_003E".data

/-- The request URL template from `getCountyInfo` (line 103). -/
def censusUrl (fipsCode : Str) : Str :=
  "https://api.census.gov/data/2022/acs/acs5?get=".data ++ censusVariables
    ++ "&for=county:".data ++ fipsCode ++ "&in=state:48".data

/-- The message of the error thrown by `getCountyInfo` for an unknown county
(line 86); character 39 is the single-quote around the name. -/
def countyNotFoundMessage (countyName : Str) : Str :=
  "County ".data ++ [Char.ofNat 39] ++ countyName ++ [Char.ofNat 39]
    ++ " not found in Texas. Please check the spelling.".data

/-- Result of `getCountyInfo`: either the thrown error (with its message) or
the returned request URL. -/
inductive CountyLookup where
  | thrown (message : Str)
  | url (u : Str)
deriving DecidableEq, Repr

/-- `getCountyInfo` from src/src/apis/countyInfoAPIs.ts (lines 79-104): find
the FIPS entry whose key equals the input case-insensitively; throw (modelled
as `CountyLookup.thrown`) when there is none, otherwise return the request
URL. -/
def getCountyInfo (countyName : Str) : CountyLookup :=
  match TEXAS_COUNTY_FIPS.find? (fun kv => decide (toLowerStr kv.1 = toLowerStr countyName)) with
  | none => .thrown (countyNotFoundMessage countyName)
  | some kv => .url (censusUrl kv.2)

/-- The optional sign consumed by `parseInt` after leading whitespace. -/
def parseSign : Str → Int × Str
  | '-' :: r => (-1, r)
  | '+' :: r => (1, r)
  | s => (1, s)

/-- `parseInt(s) || 0`: skip leading whitespace, read an optional sign and a
maximal run of decimal digits; no digits (parseInt yields NaN) or a zero value
(falsy) give 0 either way.  The legacy `0x` hexadecimal auto-detection of
`parseInt` is not modelled (Census values are decimal). -/
def jsParseIntOr0 (s : Str) : Int :=
  let p := parseSign (s.dropWhile isWs)
  let digits := p.2.takeWhile fun c => c.isDigit
  if digits = ([] : Str) then 0
  else p.1 * Int.ofNat (digits.foldl (fun a c => a * 10 + (c.toNat - 48)) 0)

/-- `processCensusData` from src/src/apis/countyInfoAPIs.ts (lines 111-134):
null when there are fewer than 2 rows or the second row has fewer than 10
columns; otherwise the positional record built from row index 1.  Total: every
branch returns a value. -/
def processCensusData (data : List (List Str)) : Option CountyInfo :=
  match data with
  | _headers :: countyRow :: _rest =>
    if countyRow.length < 10 then none
    else some ⟨countyRow.getD 0 [],
      jsParseIntOr0 (countyRow.getD 1 []),
      jsParseIntOr0 (countyRow.getD 2 []),
      jsParseIntOr0 (countyRow.getD 3 []),
      jsParseIntOr0 (countyRow.getD 4 []),
      jsParseIntOr0 (countyRow.getD 5 []),
      jsParseIntOr0 (countyRow.getD 6 []),
      jsParseIntOr0 (countyRow.getD 7 []),
      countyRow.getD 8 [],
      countyRow.getD 9 []⟩
  | _ => none

/-- What `responseData` becomes inside `httpRequest` after body parsing: a
JSON value carrying a string `message` field, some other JSON value, or the
plain text body. -/
inductive ResponseData where
  | jsonWithMessage (message : Str)
  | jsonOther
  | textData (s : Str)
deriving DecidableEq, Repr

/-- An HTTP round trip as seen by `httpRequest` after the body has been read:
`ok`/`status`/`statusText` of the fetch `Response` plus the parsed body. -/
structure TransportResponse where
  ok : Bool
  status : Nat
  statusText : Str
  responseData : ResponseData
deriving DecidableEq, Repr

/-- The transport layer outcome: either the `fetch` call (or body parsing)
threw, with the caught message (an `Error`'s `.message` or a thrown string),
or a response was obtained. -/
inductive TransportOutcome where
  | failure (message : Str)
  | success (r : TransportResponse)
deriving DecidableEq, Repr

/-- `ApiResponse` from src/src/utils/http.ts: the uniform result envelope. -/
structure HttpResult where
  data : Option ResponseData
  error : Option Str
  status : Int
  ok : Bool
deriving DecidableEq, Repr

/-- The generic fallback error text built in `httpRequest` (line 129). -/
def requestFailedMessage (status : Nat) : Str :=
  "Request failed with status ".data ++ (Nat.repr status).data

/-- `httpRequest` from src/src/utils/http.ts (lines 99-157), as a function of
the transport outcome.  The catch arm converts any thrown transport error into
`{error, status: 0, ok: false}`; a non-ok response extracts the error message
in priority order (JSON `message` field, non-empty text body, non-empty
`statusText`, generic message) and still attaches the parsed body as `data`;
an ok response carries the parsed body with no error.  Total by construction:
every branch returns an envelope. -/
def httpRequest : TransportOutcome → HttpResult
  | .failure message => ⟨none, some message, 0, false⟩
  | .success r =>
    if !r.ok then
      let extracted : Option Str :=
        match r.responseData with
        | .jsonWithMessage m => some m
        | _ => none
      let fallback : Str :=
        if r.statusText ≠ ([] : Str) then r.statusText else requestFailedMessage r.status
      let errorMessage : Str :=
        match extracted with
        | some m => m
        | none =>
          match r.responseData with
          | .textData s => if s ≠ ([] : Str) then s else fallback
          | _ => fallback
      ⟨some r.responseData, some errorMessage, Int.ofNat r.status, false⟩
    else ⟨some r.responseData, none, Int.ofNat r.status, true⟩

/-- The state held by `useCallForCountyInfo` together with its underlying
`useHttpRequest` state: `rawData`/`isLoading`/`isError`/`error` come from
`useHttpRequest`, `cacheData`/`isFromCache`/`lastStored` are the hook's own
`useState`/`useRef` cells. -/
structure HookState where
  rawData : Option (List (List Str))
  isLoading : Bool
  isError : Bool
  error : Option Str
  cacheData : Option CountyInfo
  isFromCache : Bool
  lastStored : Option Str
deriving DecidableEq, Repr

/-- How a `callForCountyInfo` invocation leaves the synchronous part of the
fetch path: a cache hit (returns at line 50, no network), the synchronous
unknown-county throw from `getCountyInfo`, or the network call
`execute(requestUrl)`.  Only the `networkCall` arm invokes the request
executor. -/
inductive CallOutcome where
  | cacheHit (d : CountyInfo)
  | countyNotFound (message : Str)
  | networkCall (url : Str)
deriving DecidableEq, Repr

/-- `callForCountyInfo` (src/src/hooks/useCallForCountyInfo.ts lines 37-71) up
to its network await point: normalize the name, consult the cache (which may
purge an expired entry), and either finish as a cache hit, rethrow the
unknown-county error (the catch arm re-sets `cacheData`/`isFromCache` to the
values already set on the miss path), or proceed to `execute(url)`. -/
def callForCountyInfo (st : HookState) (cache : CountyCache) (countyName : Str)
    (now : Int) : HookState × CountyCache × CallOutcome :=
  let normalizedCountyName := normalizeCountyName countyName
  let lookupResult := cacheGet cache normalizedCountyName now
  match lookupResult.1 with
  | some cachedData =>
    (⟨st.rawData, st.isLoading, st.isError, st.error, some cachedData, true, st.lastStored⟩,
      lookupResult.2, .cacheHit cachedData)
  | none =>
    let st2 : HookState :=
      ⟨st.rawData, st.isLoading, st.isError, st.error, none, false, none⟩
    match getCountyInfo normalizedCountyName with
    | .thrown msg => (st2, lookupResult.2, .countyNotFound msg)
    | .url u => (st2, lookupResult.2, .networkCall u)

/-- The surface returned by the hook body, plus the cache and `lastStoredRef`
left behind by the render. -/
structure RenderResult where
  data : Option CountyInfo
  isLoading : Bool
  isError : Bool
  error : Option Str
  isFromCache : Bool
  cache : CountyCache
  lastStored : Option Str
deriving DecidableEq, Repr

/-- The render-phase body of `useCallForCountyInfo` (lines 73-109): compute
`processedData` from the raw response, store a fresh record into the cache
under its own normalized name when the guard
`processedData && !isFromCache && !isLoading && !isError` holds and
`lastStoredRef` differs, and return the observable surface
(`finalData`, `isLoading` masked on cache hits, error state, cache). -/
def renderHook (st : HookState) (cache : CountyCache) (now : Int) : RenderResult :=
  let processedData : Option CountyInfo :=
    match st.rawData with
    | some rd => processCensusData rd
    | none => none
  let stored : CountyCache × Option Str :=
    match processedData with
    | some pd =>
      if !st.isFromCache && !st.isLoading && !st.isError then
        let normalizedCountyName := normalizeCountyName pd.name
        if st.lastStored ≠ some normalizedCountyName then
          (cacheSet cache normalizedCountyName pd now, some normalizedCountyName)
        else (cache, st.lastStored)
      else (cache, st.lastStored)
    | none => (cache, st.lastStored)
  let finalData := if st.isFromCache then st.cacheData else processedData
  ⟨finalData, if st.isFromCache then false else st.isLoading, st.isError, st.error,
    st.isFromCache, stored.1, stored.2⟩

/-- A concrete record used by the concrete-input theorems below. -/
def witnessRecord : CountyInfo :=
  ⟨"Harris County, Texas".data, 4731145, 0, 0, 0, 0, 0, 0, "48".data, "201".data⟩

/-- A second concrete record used by the concrete-input theorems below. -/
def witnessRecord2 : CountyInfo :=
  ⟨"Dallas County, Texas".data, 2600840, 0, 0, 0, 0, 0, 0, "48".data, "113".data⟩

theorem charToLower_toNat (c : Char) :
    (Char.toLower c).toNat =
      if c.toNat ≥ 65 ∧ c.toNat ≤ 90 then c.toNat + 32 else c.toNat := by
  simp only [Char.toLower]
  split
  · rename_i h
    obtain ⟨h1, h2⟩ := h
    revert h1 h2
    generalize c.toNat = n
    intro h1 h2
    interval_cases n <;> decide
  · rfl

theorem charToLower_eq_self (c : Char)
    (h : ¬(c.toNat ≥ 65 ∧ c.toNat ≤ 90)) : Char.toLower c = c := by
  simp only [Char.toLower]
  rw [if_neg h]

theorem charToLower_idem (c : Char) : (Char.toLower c).toLower = Char.toLower c := by
  apply charToLower_eq_self
  have h := charToLower_toNat c
  by_cases hc : c.toNat ≥ 65 ∧ c.toNat ≤ 90
  · rw [if_pos hc] at h; omega
  · rw [if_neg hc] at h; omega

theorem isWs_toLower (c : Char) : isWs (Char.toLower c) = isWs c := by
  simp only [isWs, charToLower_toNat]
  by_cases hc : c.toNat ≥ 65 ∧ c.toNat ≤ 90
  · rw [if_pos hc]
    have l : (decide (c.toNat + 32 = 32) || decide (c.toNat + 32 = 9) ||
        decide (c.toNat + 32 = 10) || decide (c.toNat + 32 = 13) ||
        decide (c.toNat + 32 = 11) || decide (c.toNat + 32 = 12)) = false := by
      simp only [Bool.or_eq_false_iff, decide_eq_false_iff_not]
      omega
    have r : (decide (c.toNat = 32) || decide (c.toNat = 9) ||
        decide (c.toNat = 10) || decide (c.toNat = 13) ||
        decide (c.toNat = 11) || decide (c.toNat = 12)) = false := by
      simp only [Bool.or_eq_false_iff, decide_eq_false_iff_not]
      omega
    rw [l, r]
  · rw [if_neg hc]

theorem isWs_comp_toLower : isWs ∘ Char.toLower = isWs :=
  funext fun c => isWs_toLower c

theorem toLowerStr_toLowerStr (s : Str) : toLowerStr (toLowerStr s) = toLowerStr s := by
  simp only [toLowerStr, List.map_map]
  exact List.map_congr_left fun c _ => charToLower_idem c

theorem trimStr_eq_rdropWhile (s : Str) :
    trimStr s = List.rdropWhile isWs (s.dropWhile isWs) := rfl

theorem dropWhile_eq_self_of_leading {v u : Str} (hp : v <+: u)
    (hu : u.dropWhile isWs = u) : v.dropWhile isWs = v := by
  cases v with
  | nil => rfl
  | cons x v2 =>
    obtain ⟨t, ht⟩ := hp
    rw [← ht] at hu
    have hx : isWs x = false := by
      by_cases h : isWs x = true
      · rw [List.cons_append, List.dropWhile_cons_of_pos h] at hu
        have hlen := (List.dropWhile_sublist (l := v2 ++ t) isWs).length_le
        rw [hu] at hlen
        simp at hlen
      · simpa using h
    rw [List.dropWhile_cons_of_neg (by simp [hx])]

theorem trimStr_trimStr (s : Str) : trimStr (trimStr s) = trimStr s := by
  rw [trimStr_eq_rdropWhile (trimStr s), trimStr_eq_rdropWhile s]
  rw [dropWhile_eq_self_of_leading ( List.rdropWhile_prefix isWs (s.dropWhile isWs))
      (List.dropWhile_idempotent isWs s)]
  exact List.rdropWhile_idempotent isWs (s.dropWhile isWs)

theorem map_toLower_dropWhile (l : Str) :
    List.map Char.toLower (l.dropWhile isWs) = (List.map Char.toLower l).dropWhile isWs := by
  rw [List.dropWhile_map, isWs_comp_toLower]

theorem toLowerStr_trimStr (s : Str) :
    toLowerStr (trimStr s) = trimStr (toLowerStr s) := by
  simp only [trimStr, toLowerStr]
  rw [List.map_reverse, map_toLower_dropWhile, List.map_reverse, map_toLower_dropWhile]

theorem keyNormalize_eq (s : Str) :
    keyNormalize s = trimStr (toLowerStr (replaceCountySuffix s)) := by
  show trimStr (toLowerStr (trimStr (replaceCountySuffix s))) = _
  rw [toLowerStr_trimStr, trimStr_trimStr]

theorem matchCountySuffix_of_allWs {s : Str} (h : ∀ c ∈ s, isWs c = true) :
    matchCountySuffix s = false := by
  have hd : s.dropWhile isWs = ([] : Str) :=
    List.dropWhile_eq_nil_iff.mpr fun x hx => h x hx
  simp only [matchCountySuffix, hd]
  rfl

theorem replaceCountySuffixAux_of_allWs :
    ∀ (acc s : Str), (∀ c ∈ s, isWs c = true) → replaceCountySuffixAux acc s = none := by
  intro acc s
  induction s generalizing acc with
  | nil =>
    intro _
    rw [replaceCountySuffixAux]
    simp [matchCountySuffix, matchLit]
  | cons c cs ih =>
    intro h
    rw [replaceCountySuffixAux]
    rw [matchCountySuffix_of_allWs h]
    simpa using ih (c :: acc) fun x hx => h x (List.mem_cons_of_mem c hx)

theorem replaceCountySuffix_of_allWs {s : Str} (h : ∀ c ∈ s, isWs c = true) :
    replaceCountySuffix s = s := by
  rw [replaceCountySuffix, replaceCountySuffixAux_of_allWs [] s h]

theorem allWs_of_trimStr_eq_nil {s : Str} (h : trimStr s = ([] : Str)) :
    ∀ c ∈ s, isWs c = true := by
  apply List.dropWhile_eq_nil_iff.mp
  rcases hne : s.dropWhile isWs with _ | ⟨x, xs⟩
  · rfl
  · exfalso
    rw [trimStr_eq_rdropWhile] at h
    have hall := List.rdropWhile_eq_nil_iff.mp h
    have hx := hall x (by rw [hne]; exact List.mem_cons_self x xs)
    have hidem := List.dropWhile_idempotent isWs s
    rw [hne, List.dropWhile_cons, if_pos hx] at hidem
    have hlen := (List.dropWhile_sublist (l := xs) isWs).length_le
    rw [hidem] at hlen
    simp at hlen

theorem trimStr_keyNormalize (s : Str) : trimStr (keyNormalize s) = keyNormalize s := by
  rw [keyNormalize_eq, trimStr_trimStr]

theorem toLowerStr_keyNormalize (s : Str) : toLowerStr (keyNormalize s) = keyNormalize s := by
  rw [keyNormalize_eq, toLowerStr_trimStr, toLowerStr_toLowerStr]

/-- Claim C4: for every input string, the key normalizer (the composition of
the hook normalizer and the cache-service normalizer, which is what produces
every cache key) lower-cases the string, trims surrounding whitespace, and
strips a trailing case-insensitive "county" optionally followed by ", texas"
(it equals the spec-modelled `specKeyNormalize`); it is total (a Lean
function) and returns the empty string on empty or whitespace-only input. -/
theorem keyNormalize_spec (s : Str) :
    keyNormalize s = specKeyNormalize s ∧
    (trimStr s = ([] : Str) → keyNormalize s = ([] : Str)) := by
  constructor
  · exact keyNormalize_eq s
  · intro h
    have hall := allWs_of_trimStr_eq_nil h
    rw [keyNormalize_eq, replaceCountySuffix_of_allWs hall, ← toLowerStr_trimStr, h]
    rfl

/-- Witness for C4 at the whitespace-only input "   ". -/
theorem keyNormalize_spec_witness :
    trimStr "   ".data = ([] : Str) ∧ keyNormalize "   ".data = ([] : Str) :=
  ⟨by decide, (keyNormalize_spec "   ".data).2 (by decide)⟩

/-- Claim C5 (amended): the cache-service normalizer (lowercase + trim) is
idempotent for every input; the full key normalizer is idempotent on every
input whose normalized form contains no further match of the trailing county
suffix pattern (the regex strips only one occurrence per call, so inputs such
as "county county" are not fixed after one pass). -/
theorem normalize_idem_amended (x : Str) :
    cacheNormalizeCountyName (cacheNormalizeCountyName x) = cacheNormalizeCountyName x ∧
    (replaceCountySuffix (keyNormalize x) = keyNormalize x →
      keyNormalize (keyNormalize x) = keyNormalize x) := by
  constructor
  · show trimStr (toLowerStr (trimStr (toLowerStr x))) = _
    rw [toLowerStr_trimStr, toLowerStr_toLowerStr, trimStr_trimStr]
    rfl
  · intro h
    rw [keyNormalize_eq (keyNormalize x), h, toLowerStr_keyNormalize, trimStr_keyNormalize]

/-- Witness for the amended C5 at "Harris County, Texas". -/
theorem normalize_idem_amended_witness :
    replaceCountySuffix (keyNormalize "Harris County, Texas".data) =
      keyNormalize "Harris County, Texas".data ∧
    keyNormalize (keyNormalize "Harris County, Texas".data) =
      keyNormalize "Harris County, Texas".data :=
  ⟨by decide, (normalize_idem_amended "Harris County, Texas".data).2 (by decide)⟩

/-- Counterexample to C5 as stated: the key normalizer is not idempotent at
the input "county county" (one pass yields "county", a second pass yields the
empty string). -/
theorem normalize_not_idempotent :
    keyNormalize (keyNormalize "county county".data) ≠ keyNormalize "county county".data := by
  decide

theorem lookupKey_insertKey_self (c : CountyCache) (k : Str) (e : CacheEntry) :
    lookupKey (insertKey c k e) k = some e := by
  induction c with
  | nil => simp [insertKey, lookupKey]
  | cons kv rest ih =>
    rw [insertKey]
    by_cases h : kv.1 = k
    · rw [if_pos h, lookupKey, if_pos rfl]
    · rw [if_neg h, lookupKey, if_neg h]
      exact ih

theorem lookupKey_insertKey_ne (c : CountyCache) (k k2 : Str) (e : CacheEntry)
    (hne : k ≠ k2) : lookupKey (insertKey c k e) k2 = lookupKey c k2 := by
  induction c with
  | nil => simp [insertKey, lookupKey, hne]
  | cons kv rest ih =>
    rw [insertKey]
    by_cases h : kv.1 = k
    · rw [if_pos h, lookupKey, if_neg hne, lookupKey, if_neg (by rw [h]; exact hne)]
    · rw [if_neg h, lookupKey, lookupKey]
      by_cases h2 : kv.1 = k2
      · rw [if_pos h2, if_pos h2]
      · rw [if_neg h2, if_neg h2]
        exact ih

theorem length_insertKey (c : CountyCache) (k : Str) (e : CacheEntry) :
    (insertKey c k e).length =
      if (lookupKey c k).isSome then c.length else c.length + 1 := by
  induction c with
  | nil => simp [insertKey, lookupKey]
  | cons kv rest ih =>
    rw [insertKey, lookupKey]
    by_cases h : kv.1 = k
    · rw [if_pos h, if_pos h]
      simp
    · rw [if_neg h, if_neg h, List.length_cons, List.length_cons, ih]
      by_cases h2 : (lookupKey rest k).isSome
      · rw [if_pos h2, if_pos h2]
      · rw [if_neg h2, if_neg h2]

theorem lookupKey_eraseKey_ne (c : CountyCache) (k k2 : Str) (hne : k ≠ k2) :
    lookupKey (eraseKey c k) k2 = lookupKey c k2 := by
  induction c with
  | nil => rfl
  | cons kv rest ih =>
    rw [eraseKey, List.filter_cons]
    by_cases h : kv.1 = k
    · rw [if_neg (by simp [h])]
      rw [lookupKey, if_neg (by rw [h]; exact hne)]
      exact ih
    · rw [if_pos (by simp [h])]
      rw [lookupKey, lookupKey]
      by_cases h2 : kv.1 = k2
      · rw [if_pos h2, if_pos h2]
      · rw [if_neg h2, if_neg h2]
        exact ih

theorem lookupKey_eq_of_mem {c : CountyCache} (hnd : (c.map Prod.fst).Nodup)
    {kv : Str × CacheEntry} (hmem : kv ∈ c) : lookupKey c kv.1 = some kv.2 := by
  induction c with
  | nil => cases hmem
  | cons x rest ih =>
    rw [List.map_cons, List.nodup_cons] at hnd
    rcases List.mem_cons.mp hmem with h | h
    · rw [h, lookupKey, if_pos rfl]
    · rw [lookupKey]
      by_cases hx : x.1 = kv.1
      · exfalso
        exact hnd.1 (hx ▸ List.mem_map_of_mem Prod.fst h)
      · rw [if_neg hx]
        exact ih hnd.2 h

theorem key_ne_of_lookupKey_none {c : CountyCache} {k : Str}
    (h : lookupKey c k = none) : ∀ kv ∈ c, kv.1 ≠ k := by
  induction c with
  | nil => intro kv hkv; cases hkv
  | cons x rest ih =>
    intro kv hkv
    rw [lookupKey] at h
    by_cases hx : x.1 = k
    · rw [if_pos hx] at h; cases h
    · rw [if_neg hx] at h
      rcases List.mem_cons.mp hkv with hh | hh
      · rw [hh]; exact hx
      · exact ih h kv hh

/-- Claim C1: for every record `r` and raw spellings `s1`, `s2` that
normalize to the same cache key, `get(s1)` at any time within the 24-hour
window after `set(s2, r)` returns `r`. -/
theorem cache_set_then_get (c : CountyCache) (r : CountyInfo) (s1 s2 : Str) (t t2 : Int)
    (hnorm : cacheNormalizeCountyName s1 = cacheNormalizeCountyName s2)
    (hfresh : t2 - t < CACHE_EXPIRY_TIME) :
    (cacheGet (cacheSet c s2 r t) s1 t2).1 = some r := by
  have hv : isCacheValid t2 t = true := by
    simp only [isCacheValid, decide_eq_true_eq]
    exact hfresh
  simp only [cacheGet, cacheSet, hnorm, lookupKey_insertKey_self, hv]
  simp

/-- Witness for C1: "HARRIS " and "harris" share the key "harris". -/
theorem cache_set_then_get_witness :
    cacheNormalizeCountyName "HARRIS ".data = cacheNormalizeCountyName "harris".data ∧
    (1000 : Int) - 0 < CACHE_EXPIRY_TIME ∧
    (cacheGet (cacheSet [] "harris".data witnessRecord 0) "HARRIS ".data 1000).1 =
      some witnessRecord :=
  ⟨by decide, by decide,
    cache_set_then_get [] witnessRecord "HARRIS ".data "harris".data 0 1000
      (by decide) (by decide)⟩

/-- Claim C2: `get(k)` returns the stored record exactly when the entry for
the normalized key exists and its age satisfies `now - storedAt < 24h`; a
missing entry leaves the cache unchanged and returns the null sentinel; an
entry of age >= 24h is deleted as a side effect and the null sentinel is
returned.  `cacheGet` is a total Lean function, so no call can throw. -/
theorem cacheGet_spec (c : CountyCache) (k : Str) (now : Int) :
    (lookupKey c (cacheNormalizeCountyName k) = none → cacheGet c k now = (none, c)) ∧
    (∀ e, lookupKey c (cacheNormalizeCountyName k) = some e →
      (now - e.timestamp < CACHE_EXPIRY_TIME → cacheGet c k now = (some e.data, c)) ∧
      (CACHE_EXPIRY_TIME ≤ now - e.timestamp →
        cacheGet c k now = (none, eraseKey c (cacheNormalizeCountyName k)))) := by
  refine ⟨fun h => ?_, fun e he => ⟨fun hv => ?_, fun hexp => ?_⟩⟩
  · simp only [cacheGet, h]
  · have hb : isCacheValid now e.timestamp = true := by
      simp only [isCacheValid, decide_eq_true_eq]
      exact hv
    simp only [cacheGet, he, hb]
    simp
  · have hb : isCacheValid now e.timestamp = false := by
      simp only [isCacheValid, decide_eq_false_iff_not]
      omega
    simp only [cacheGet, he, hb]
    simp [cacheRemove]

/-- Witness for C2: a fresh entry is returned at age 1000ms; the same entry
is purged and reported absent at age exactly 24h. -/
theorem cacheGet_spec_witness :
    cacheGet [("harris".data, ⟨witnessRecord, 0⟩)] "Harris".data 1000 =
      (some witnessRecord, [("harris".data, ⟨witnessRecord, 0⟩)]) ∧
    cacheGet [("harris".data, ⟨witnessRecord, 0⟩)] "Harris".data CACHE_EXPIRY_TIME =
      ((none : Option CountyInfo), ([] : CountyCache)) := by
  constructor
  · exact ((cacheGet_spec [("harris".data, ⟨witnessRecord, 0⟩)] "Harris".data 1000).2
      ⟨witnessRecord, 0⟩ (by decide)).1 (by decide)
  · have h := ((cacheGet_spec [("harris".data, ⟨witnessRecord, 0⟩)] "Harris".data
      CACHE_EXPIRY_TIME).2 ⟨witnessRecord, 0⟩ (by decide)).2 (by decide)
    rw [h]
    decide

/-- Claim C10 (implicit frame property): `set(k1, r)` leaves the entry of any
key `k2` with a different normalized key unchanged (both its stored
entry and the result of a subsequent `get(k2)`), and changes the cache size
by exactly 1 when no entry for the normalized `k1` existed and by 0 when it
overwrites. -/
theorem cacheSet_frame (c : CountyCache) (r : CountyInfo) (k1 k2 : Str) (t t2 : Int)
    (hne : cacheNormalizeCountyName k1 ≠ cacheNormalizeCountyName k2) :
    lookupKey (cacheSet c k1 r t) (cacheNormalizeCountyName k2) =
      lookupKey c (cacheNormalizeCountyName k2) ∧
    (cacheGet (cacheSet c k1 r t) k2 t2).1 = (cacheGet c k2 t2).1 ∧
    cacheSize (cacheSet c k1 r t) =
      (if (lookupKey c (cacheNormalizeCountyName k1)).isSome then cacheSize c
       else cacheSize c + 1) := by
  have hl := lookupKey_insertKey_ne c (cacheNormalizeCountyName k1)
    (cacheNormalizeCountyName k2) ⟨r, t⟩ hne
  refine ⟨hl, ?_, ?_⟩
  · simp only [cacheGet, cacheSet]
    rw [show lookupKey (insertKey c (cacheNormalizeCountyName k1) ⟨r, t⟩)
        (cacheNormalizeCountyName k2) = lookupKey c (cacheNormalizeCountyName k2) from hl]
    cases lookupKey c (cacheNormalizeCountyName k2) with
    | none => rfl
    | some e =>
      dsimp only
      by_cases hv : isCacheValid t2 e.timestamp = true
      · rw [if_pos hv, if_pos hv]
      · rw [if_neg hv, if_neg hv]
  · simp only [cacheSet, cacheSize]
    exact length_insertKey c (cacheNormalizeCountyName k1) ⟨r, t⟩

/-- Witness for C10: inserting "Harris" into a cache holding only "dallas"
leaves the "Dallas" lookup unchanged and grows the size by exactly 1. -/
theorem cacheSet_frame_witness :
    cacheNormalizeCountyName "Harris".data ≠ cacheNormalizeCountyName "Dallas".data ∧
    (cacheGet (cacheSet [("dallas".data, ⟨witnessRecord2, 3⟩)] "Harris".data witnessRecord 5)
        "Dallas".data 10).1 =
      (cacheGet [("dallas".data, ⟨witnessRecord2, 3⟩)] "Dallas".data 10).1 ∧
    cacheSize (cacheSet [("dallas".data, ⟨witnessRecord2, 3⟩)] "Harris".data witnessRecord 5) =
      cacheSize [("dallas".data, ⟨witnessRecord2, 3⟩)] + 1 := by
  have h := cacheSet_frame [("dallas".data, ⟨witnessRecord2, 3⟩)] witnessRecord
    "Harris".data "Dallas".data 5 10 (by decide)
  refine ⟨by decide, h.2.1, ?_⟩
  rw [h.2.2]
  decide

theorem length_filter_add_length_not (p : Str × CacheEntry → Bool) (l : CountyCache) :
    (l.filter p).length + (l.filter fun a => !(p a)).length = l.length := by
  induction l with
  | nil => rfl
  | cons x rest ih =>
    by_cases h : p x = true
    · rw [List.filter_cons_of_pos h, List.filter_cons_of_neg (by simp [h])]
      simp only [List.length_cons]
      omega
    · rw [List.filter_cons_of_neg (by simpa using h),
        List.filter_cons_of_pos (by simp [Bool.eq_false_iff.mpr h])]
      simp only [List.length_cons]
      omega

theorem keysOf_eraseKey_nodup {c : CountyCache} (hnd : (c.map Prod.fst).Nodup)
    (k : Str) : ((eraseKey c k).map Prod.fst).Nodup :=
  hnd.sublist (List.Sublist.map Prod.fst (List.filter_sublist c))

theorem cleanupLoop_eq (now : Int) :
    ∀ (ks : List Str) (acc : CountyCache), (acc.map Prod.fst).Nodup →
      ks.foldl (cleanupStep now) acc =
        acc.filter fun kv => !(decide (kv.1 ∈ ks)) || isCacheValid now kv.2.timestamp := by
  intro ks
  induction ks with
  | nil =>
    intro acc _
    rw [List.foldl_nil]
    symm
    apply List.filter_eq_self.mpr
    intro a _
    simp
  | cons k ks2 ih =>
    intro acc hnd
    rw [List.foldl_cons]
    rcases hlk : lookupKey acc k with _ | e
    case none =>
      have hstep : cleanupStep now acc k = acc := by rw [cleanupStep, hlk]
      rw [hstep, ih acc hnd]
      apply List.filter_congr
      intro kv hmem
      have hne : kv.1 ≠ k := key_ne_of_lookupKey_none hlk kv hmem
      simp [List.mem_cons, hne]
    case some =>
      by_cases hv : isCacheValid now e.timestamp = true
      · have hstep : cleanupStep now acc k = acc := by
          rw [cleanupStep, hlk]
          dsimp only
          rw [if_pos hv]
        rw [hstep, ih acc hnd]
        apply List.filter_congr
        intro kv hmem
        by_cases hk : kv.1 = k
        · have he : kv.2 = e := by
            have hh := lookupKey_eq_of_mem hnd hmem
            rw [hk, hlk] at hh
            exact (Option.some_inj.mp hh).symm
          simp [List.mem_cons, hk, he, hv]
        · simp [List.mem_cons, hk]
      · have hstep : cleanupStep now acc k = eraseKey acc k := by
          rw [cleanupStep, hlk]
          dsimp only
          rw [if_neg hv]
        rw [hstep, ih (eraseKey acc k) (keysOf_eraseKey_nodup hnd k), eraseKey,
          List.filter_filter]
        apply List.filter_congr
        intro kv hmem
        by_cases hk : kv.1 = k
        · have he : kv.2 = e := by
            have hh := lookupKey_eq_of_mem hnd hmem
            rw [hk, hlk] at hh
            exact (Option.some_inj.mp hh).symm
          have hvf : isCacheValid now kv.2.timestamp = false := by
            rw [he]
            exact Bool.eq_false_iff.mpr hv
          simp [List.mem_cons, hk, hvf]
        · simp [List.mem_cons, hk]

theorem cleanupExpired_snd (c : CountyCache) (now : Int)
    (hnd : (c.map Prod.fst).Nodup) :
    (cleanupExpired c now).2 = c.filter fun kv => isCacheValid now kv.2.timestamp := by
  show (c.map Prod.fst).foldl (cleanupStep now) c = _
  rw [cleanupLoop_eq now (c.map Prod.fst) c hnd]
  apply List.filter_congr
  intro kv hmem
  have hm : kv.1 ∈ c.map Prod.fst := List.mem_map_of_mem Prod.fst hmem
  simp [hm]

theorem cleanupExpired_fst (c : CountyCache) (now : Int) :
    (cleanupExpired c now).1 = cacheSize c - cacheSize (cleanupExpired c now).2 := rfl

/-- Claim C9: `cleanupExpired()` deletes exactly the entries whose age is
>= 24 hours (the survivors are exactly the still-valid entries) and returns
the number removed; a second call (when no surviving entry has newly expired
by then) removes nothing and returns 0.  The `Nodup` hypothesis states that
the JavaScript object keys are pairwise distinct, which holds by
construction. -/
theorem cleanupExpired_spec (c : CountyCache) (t1 t2 : Int)
    (hnd : (c.map Prod.fst).Nodup)
    (hnonew : ∀ kv ∈ (cleanupExpired c t1).2, isCacheValid t2 kv.2.timestamp = true) :
    (cleanupExpired c t1).2 = (c.filter fun kv => isCacheValid t1 kv.2.timestamp) ∧
    (cleanupExpired c t1).1 =
      (c.filter fun kv => !(isCacheValid t1 kv.2.timestamp)).length ∧
    (cleanupExpired (cleanupExpired c t1).2 t2).1 = 0 := by
  have h2 := cleanupExpired_snd c t1 hnd
  refine ⟨h2, ?_, ?_⟩
  · rw [cleanupExpired_fst, h2]
    have hsum := length_filter_add_length_not (fun kv => isCacheValid t1 kv.2.timestamp) c
    simp only [cacheSize]
    omega
  · have hnd2 : ((cleanupExpired c t1).2.map Prod.fst).Nodup := by
      rw [h2]
      exact hnd.sublist (List.Sublist.map Prod.fst (List.filter_sublist c))
    have h3 := cleanupExpired_snd (cleanupExpired c t1).2 t2 hnd2
    rw [cleanupExpired_fst, h3, List.filter_eq_self.mpr hnonew]
    exact Nat.sub_self _

/-- Witness for C9: of two entries, cleanup at t = 24h removes exactly the
expired one and returns 1; a second cleanup 1 second later returns 0. -/
theorem cleanupExpired_spec_witness :
    (cleanupExpired [("harris".data, ⟨witnessRecord, 0⟩),
        ("dallas".data, ⟨witnessRecord2, CACHE_EXPIRY_TIME⟩)] CACHE_EXPIRY_TIME).1 = 1 ∧
    (cleanupExpired [("harris".data, ⟨witnessRecord, 0⟩),
        ("dallas".data, ⟨witnessRecord2, CACHE_EXPIRY_TIME⟩)] CACHE_EXPIRY_TIME).2 =
      [("dallas".data, ⟨witnessRecord2, CACHE_EXPIRY_TIME⟩)] ∧
    (cleanupExpired (cleanupExpired [("harris".data, ⟨witnessRecord, 0⟩),
        ("dallas".data, ⟨witnessRecord2, CACHE_EXPIRY_TIME⟩)] CACHE_EXPIRY_TIME).2
      (CACHE_EXPIRY_TIME + 1000)).1 = 0 := by
  have h := cleanupExpired_spec
    [("harris".data, ⟨witnessRecord, 0⟩), ("dallas".data, ⟨witnessRecord2, CACHE_EXPIRY_TIME⟩)]
    CACHE_EXPIRY_TIME (CACHE_EXPIRY_TIME + 1000) (by decide) (by decide)
  refine ⟨?_, ?_, h.2.2⟩
  · rw [h.2.1]
    decide
  · rw [h.1]
    decide

theorem renderHook_fromCache (st : HookState) (cache : CountyCache) (now : Int)
    (hfc : st.isFromCache = true) :
    (renderHook st cache now).data = st.cacheData ∧
    (renderHook st cache now).isLoading = false ∧
    (renderHook st cache now).cache = cache := by
  rcases st with ⟨rawData, isLdg, isErr, err, cd, ifc, ls⟩
  simp only at hfc
  subst hfc
  unfold renderHook
  refine ⟨rfl, rfl, ?_⟩
  rcases rawData with _ | rd
  · rfl
  · dsimp only
    rcases processCensusData rd with _ | pd
    · rfl
    · rfl

/-- Claim C3: whenever the normalized county name has a valid (non-expired)
cache entry, `callForCountyInfo` terminates as a cache hit: `isFromCache` is
true, the cached record is exposed as `data`, the reported `isLoading` is
false, and the outcome is `cacheHit` — not `networkCall`, so the request
executor is never invoked and the cache is unchanged. -/
theorem cache_hit_no_network (st : HookState) (cache : CountyCache) (name : Str)
    (now now2 : Int) (e : CacheEntry)
    (hlook : lookupKey cache (keyNormalize name) = some e)
    (hvalid : isCacheValid now e.timestamp = true) :
    (callForCountyInfo st cache name now).2.2 = CallOutcome.cacheHit e.data ∧
    (callForCountyInfo st cache name now).2.1 = cache ∧
    (callForCountyInfo st cache name now).1.isFromCache = true ∧
    (renderHook (callForCountyInfo st cache name now).1 cache now2).data = some e.data ∧
    (renderHook (callForCountyInfo st cache name now).1 cache now2).isLoading = false ∧
    (renderHook (callForCountyInfo st cache name now).1 cache now2).cache = cache := by
  have hget : cacheGet cache (normalizeCountyName name) now = (some e.data, cache) := by
    simp only [cacheGet]
    rw [show lookupKey cache (cacheNormalizeCountyName (normalizeCountyName name)) = some e
      from hlook]
    dsimp only
    rw [if_pos hvalid]
  have hcall : callForCountyInfo st cache name now =
      (⟨st.rawData, st.isLoading, st.isError, st.error, some e.data, true, st.lastStored⟩,
        cache, CallOutcome.cacheHit e.data) := by
    simp only [callForCountyInfo, hget]
  rw [hcall]
  have hrender := renderHook_fromCache
    ⟨st.rawData, st.isLoading, st.isError, st.error, some e.data, true, st.lastStored⟩
    cache now2 rfl
  exact ⟨rfl, rfl, rfl, hrender.1, hrender.2.1, hrender.2.2⟩

/-- Witness for C3 at a one-entry cache and the raw spelling
"Harris County, Texas". -/
theorem cache_hit_no_network_witness :
    lookupKey [("harris".data, ⟨witnessRecord, 0⟩)]
      (keyNormalize "Harris County, Texas".data) = some ⟨witnessRecord, 0⟩ ∧
    (callForCountyInfo ⟨none, false, false, none, none, false, none⟩
        [("harris".data, ⟨witnessRecord, 0⟩)] "Harris County, Texas".data 1000).2.2 =
      CallOutcome.cacheHit witnessRecord ∧
    (renderHook (callForCountyInfo ⟨none, false, false, none, none, false, none⟩
        [("harris".data, ⟨witnessRecord, 0⟩)] "Harris County, Texas".data 1000).1
        [("harris".data, ⟨witnessRecord, 0⟩)] 2000).data = some witnessRecord := by
  have h := cache_hit_no_network ⟨none, false, false, none, none, false, none⟩
    [("harris".data, ⟨witnessRecord, 0⟩)] "Harris County, Texas".data 1000 2000
    ⟨witnessRecord, 0⟩ (by decide) (by decide)
  exact ⟨by decide, h.1, h.2.2.2.1⟩

theorem parseSign_snd_sublist (l : Str) : (parseSign l).2.Sublist l := by
  unfold parseSign
  split
  · exact List.sublist_cons_self _ _
  · exact List.sublist_cons_self _ _
  · exact List.Sublist.refl _

theorem jsParseIntOr0_no_digits {s : Str} (h : ∀ c ∈ s, c.isDigit = false) :
    jsParseIntOr0 s = 0 := by
  have hsub : (parseSign (s.dropWhile isWs)).2.Sublist s :=
    (parseSign_snd_sublist (s.dropWhile isWs)).trans (List.dropWhile_sublist isWs)
  have hdig : (parseSign (s.dropWhile isWs)).2.takeWhile (fun c => c.isDigit) = ([] : Str) := by
    rcases hp : (parseSign (s.dropWhile isWs)).2 with _ | ⟨c, r⟩
    · rfl
    · have hc : c.isDigit = false := by
        apply h
        apply hsub.subset
        rw [hp]
        exact List.mem_cons_self c r
      rw [List.takeWhile_cons_of_neg (by simp [hc])]
  unfold jsParseIntOr0
  simp [hdig]

/-- Counterexample to C6 as stated: a malformed 3-row payload (not exactly 2
rows) is not rejected — `processCensusData` builds a record from row index 1,
so "wrong shape" in the code means fewer than 2 rows, not "not exactly 2". -/
theorem processCensusData_not_exactly_two_rows :
    processCensusData ["NAME".data :: List.replicate 9 "hdr".data,
      "Harris County, Texas".data :: "4731145".data :: List.replicate 8 "1".data,
      ["extra".data]] ≠ none := by
  decide

/-- Claim C6 (amended): a payload with fewer than 2 rows, or whose second row
has fewer than 10 columns, yields a null record without throwing (payloads
with more than 2 rows are accepted and processed from row index 1); on an
accepted payload the record is built by positional column mapping
(0 = name through 9 = countyCode) with an unparsable numeric field
defaulting to 0; and on a null parse the hook surface shows null data, keeps
the error flag false, and writes nothing to the cache. -/
theorem processCensusData_spec (rd : List (List Str)) :
    (rd.length < 2 → processCensusData rd = none) ∧
    (∀ hd row rest, rd = hd :: row :: rest →
      (row.length < 10 → processCensusData rd = none) ∧
      (10 ≤ row.length → processCensusData rd =
        some ⟨row.getD 0 [], jsParseIntOr0 (row.getD 1 []), jsParseIntOr0 (row.getD 2 []),
          jsParseIntOr0 (row.getD 3 []), jsParseIntOr0 (row.getD 4 []),
          jsParseIntOr0 (row.getD 5 []), jsParseIntOr0 (row.getD 6 []),
          jsParseIntOr0 (row.getD 7 []), row.getD 8 [], row.getD 9 []⟩)) ∧
    (∀ s : Str, (∀ c ∈ s, c.isDigit = false) → jsParseIntOr0 s = 0) ∧
    (processCensusData rd = none →
      ∀ (cache : CountyCache) (now : Int) (err ls : Option Str),
        (renderHook ⟨some rd, false, false, err, none, false, ls⟩ cache now).data = none ∧
        (renderHook ⟨some rd, false, false, err, none, false, ls⟩ cache now).isError = false ∧
        (renderHook ⟨some rd, false, false, err, none, false, ls⟩ cache now).cache = cache) := by
  refine ⟨?_, ?_, fun s hs => jsParseIntOr0_no_digits hs, ?_⟩
  · intro hlen
    rcases rd with _ | ⟨a, _ | ⟨b, rest⟩⟩
    · rfl
    · rfl
    · simp at hlen
      omega
  · intro hd row rest hrd
    subst hrd
    constructor
    · intro hshort
      unfold processCensusData
      dsimp only
      rw [if_pos hshort]
    · intro hlong
      unfold processCensusData
      dsimp only
      rw [if_neg (by omega)]
  · intro hnone cache now err ls
    unfold renderHook
    dsimp only
    rw [hnone]
    exact ⟨rfl, rfl, rfl⟩

/-- Witness for C6: a 1-row payload parses to null and renders with null
data, no error and an unchanged cache; "N/A" parses to 0. -/
theorem processCensusData_spec_witness :
    processCensusData [["only-row".data]] = none ∧
    (renderHook ⟨some [["only-row".data]], false, false, none, none, false, none⟩ [] 7).data =
      none ∧
    (renderHook ⟨some [["only-row".data]], false, false, none, none, false, none⟩ [] 7).isError =
      false ∧
    (renderHook ⟨some [["only-row".data]], false, false, none, none, false, none⟩ [] 7).cache =
      ([] : CountyCache) ∧
    jsParseIntOr0 "N/A".data = 0 := by
  have h := processCensusData_spec [["only-row".data]]
  have hnone : processCensusData [["only-row".data]] = none := h.1 (by decide)
  have hr := h.2.2.2 hnone [] 7 none none
  exact ⟨hnone, hr.1, hr.2.1, hr.2.2, h.2.2.1 "N/A".data (by decide)⟩

/-- Counterexample to C7 as stated: when the cache holds an expired entry
under the unknown name, the failed fetch attempt changes the cache size (the
lookup that precedes the name-to-code resolution lazily purges the expired
entry), so "cache size is the same before and after" does not hold. -/
theorem unknown_county_purges_expired_entry :
    (callForCountyInfo ⟨none, false, false, none, none, false, none⟩
        [("atlantis".data, ⟨witnessRecord, 0⟩)] "Atlantis".data CACHE_EXPIRY_TIME).2.2 =
      CallOutcome.countyNotFound (countyNotFoundMessage "Atlantis".data) ∧
    cacheSize (callForCountyInfo ⟨none, false, false, none, none, false, none⟩
        [("atlantis".data, ⟨witnessRecord, 0⟩)] "Atlantis".data CACHE_EXPIRY_TIME).2.1 ≠
      cacheSize [("atlantis".data, ⟨witnessRecord, 0⟩)] := by
  decide

/-- Claim C7 (amended): for every county name with no case-insensitive entry
in the name-to-code table and no cache entry under its normalized key, the
fetch path ends in the synchronous `countyNotFound` outcome carrying the
"not found" message — the network-call outcome is never produced — and the
cache is left unchanged. -/
theorem unknown_county_spec (st : HookState) (cache : CountyCache) (name : Str) (now : Int)
    (hmiss : lookupKey cache (keyNormalize name) = none)
    (hunk : ∀ kv ∈ TEXAS_COUNTY_FIPS,
      toLowerStr kv.1 ≠ toLowerStr (normalizeCountyName name)) :
    (callForCountyInfo st cache name now).2.2 =
      CallOutcome.countyNotFound (countyNotFoundMessage (normalizeCountyName name)) ∧
    (callForCountyInfo st cache name now).2.1 = cache := by
  have hget : cacheGet cache (normalizeCountyName name) now = (none, cache) := by
    simp only [cacheGet]
    rw [show lookupKey cache (cacheNormalizeCountyName (normalizeCountyName name)) = none
      from hmiss]
  have hfind : TEXAS_COUNTY_FIPS.find?
      (fun kv => decide (toLowerStr kv.1 = toLowerStr (normalizeCountyName name))) = none := by
    apply List.find?_eq_none.mpr
    intro kv hkv
    simpa using hunk kv hkv
  have hthrown : getCountyInfo (normalizeCountyName name) =
      CountyLookup.thrown (countyNotFoundMessage (normalizeCountyName name)) := by
    simp only [getCountyInfo, hfind]
  simp only [callForCountyInfo, hget, hthrown]
  exact ⟨trivial, trivial⟩

/-- Witness for C7 at the name "Nonexistent" and an empty cache. -/
theorem unknown_county_spec_witness :
    (callForCountyInfo ⟨none, false, false, none, none, false, none⟩ []
        "Nonexistent".data 42).2.2 =
      CallOutcome.countyNotFound (countyNotFoundMessage "Nonexistent".data) ∧
    (callForCountyInfo ⟨none, false, false, none, none, false, none⟩ []
        "Nonexistent".data 42).2.1 = ([] : CountyCache) := by
  have h := unknown_county_spec ⟨none, false, false, none, none, false, none⟩ []
    "Nonexistent".data 42 (by decide) (by decide)
  have hn : normalizeCountyName "Nonexistent".data = "Nonexistent".data := by decide
  rw [hn] at h
  exact h

/-- Claim C8: the request executor is total over transport failures — it is a
total Lean function, so every outcome maps to a result envelope and no call
can raise — and a caught transport exception becomes a result with
`ok = false`, `status = 0`, and `error` set to the exception message. -/
theorem httpRequest_transport_failure (message : Str) :
    (httpRequest (TransportOutcome.failure message)).ok = false ∧
    (httpRequest (TransportOutcome.failure message)).status = 0 ∧
    (httpRequest (TransportOutcome.failure message)).error = some message ∧
    (httpRequest (TransportOutcome.failure message)).data = none :=
  ⟨rfl, rfl, rfl, rfl⟩
